import Mathlib

/-!
Shallow embedding of the event-booking backend
(`event-booking/backend/server.js` and `event-booking/backend/database.js`).

Modelling conventions:
* SQL rows become Lean structures; tables become lists of rows inside a `DB`
  record.  Monetary amounts (SQLite `REAL`) are modelled as `ℚ`; nullable
  price columns as `Option ℚ`.
* SQLite datetime strings compare lexicographically, which coincides with
  chronological order for the ISO strings the server writes, so timestamps
  are modelled as `Nat` and `datetime('now')` as an explicit `now : Nat`
  argument threaded into each operation.
* `uuidv4()` produces fresh identifiers that the server never reads back;
  identifiers that must be fresh (booking ids, payment ids) are taken as
  explicit arguments, and seat-lock row ids are derived from the
  `UNIQUE(event_id, seat_id)` key, which `INSERT OR REPLACE` enforces.
* `Math.random() < 0.1` in the payment route is modelled by an explicit
  Boolean outcome argument (`declined`).
-/

namespace EventBooking

/-- A row of the `seats` table (database.js, CREATE TABLE seats). -/
structure Seat where
  id : String
  venue_id : String
  row_label : String
  seat_number : Nat
  tier : String
  deriving DecidableEq, Repr

/-- A row of the `events` table; only the columns the modelled routes read.
`vip_price` and `premium_price` are nullable `REAL` columns. -/
structure Event where
  id : String
  venue_id : String
  base_price : ℚ
  vip_price : Option ℚ
  premium_price : Option ℚ
  status : String
  deriving DecidableEq, Repr

/-- A row of the `seat_locks` table.  The schema declares
`UNIQUE(event_id, seat_id)`. -/
structure SeatLock where
  id : String
  event_id : String
  seat_id : String
  session_id : String
  expires_at : Nat
  deriving DecidableEq, Repr

/-- A row of the `bookings` table (`qr_code` is written but never read by the
modelled routes, so it is omitted). -/
structure Booking where
  id : String
  event_id : String
  user_email : String
  user_name : String
  total_amount : Rat
  status : String
  deriving DecidableEq, Repr

/-- A row of the `booking_seats` table. -/
structure BookingSeat where
  id : String
  booking_id : String
  seat_id : String
  price : Rat
  deriving DecidableEq, Repr

/-- A row of the `payments` table. -/
structure Payment where
  id : String
  booking_id : String
  amount : Rat
  method : String
  status : String
  transaction_id : String
  deriving DecidableEq, Repr

/-- The database state: one list per table touched by the modelled routes. -/
structure DB where
  seats : List Seat
  events : List Event
  seat_locks : List SeatLock
  bookings : List Booking
  booking_seats : List BookingSeat
  payments : List Payment
  deriving DecidableEq, Repr

/-- `LOCK_DURATION_MINUTES` (server.js line 24), converted to seconds. -/
def LOCK_DURATION_SECONDS : Nat := 10 * 60

/-- `cleanExpiredLocks` (database.js lines 331-334):
`DELETE FROM seat_locks WHERE expires_at < datetime('now')`. -/
def cleanExpiredLocks (db : DB) (now : Nat) : DB :=
  { db with seat_locks := db.seat_locks.filter (fun l => !(l.expires_at < now : Bool)) }

/-- The `bs.id IS NOT NULL` test of the lock route and of the seats
projection: the seat is attached via `booking_seats` to a booking for this
event whose status is `confirmed` (server.js lines 135-139 and 188-192). -/
def seatBookedConfirmed (db : DB) (eventId seatId : String) : Bool :=
  db.booking_seats.any (fun bs =>
    bs.seat_id == seatId &&
    db.bookings.any (fun b =>
      b.id == bs.booking_id && b.event_id == eventId && b.status == "confirmed"))

/-- The `sl.id IS NOT NULL AND sl.session_id != ?` test of the lock route:
a live (`expires_at > datetime('now')`) lock for this event on this seat held
by a different session (server.js lines 193-197). -/
def seatLockedByOther (db : DB) (now : Nat) (eventId seatId sessionId : String) : Bool :=
  db.seat_locks.any (fun l =>
    l.seat_id == seatId && l.event_id == eventId &&
    (now < l.expires_at : Bool) && l.session_id != sessionId)

/-- One element of the `unavailable` array returned by the 409 response of
the lock route. -/
structure UnavailableSeat where
  id : String
  row_label : String
  seat_number : Nat
  reason : String
  deriving DecidableEq, Repr

/-- The `unavailable` query of the lock route (server.js lines 180-198):
rows of `seats` whose id is in `seatIds` and which are booked by a confirmed
booking or locked by a live lock of a different session, each carrying its
reason (`booked` wins over `locked` in the SQL CASE). -/
def unavailableSeats (db : DB) (now : Nat) (eventId : String) (seatIds : List String)
    (sessionId : String) : List UnavailableSeat :=
  (db.seats.filter (fun s =>
    seatIds.contains s.id &&
    (seatBookedConfirmed db eventId s.id || seatLockedByOther db now eventId s.id sessionId))).map
    (fun s =>
      { id := s.id, row_label := s.row_label, seat_number := s.seat_number,
        reason := if seatBookedConfirmed db eventId s.id then "booked" else "locked" })

/-- `INSERT OR REPLACE INTO seat_locks` under `UNIQUE(event_id, seat_id)`:
any row with the same key is replaced by the new row. -/
def insertOrReplaceLock (locks : List SeatLock) (l : SeatLock) : List SeatLock :=
  (locks.filter (fun x => !(x.event_id == l.event_id && x.seat_id == l.seat_id))) ++ [l]

/-- The lock row the lock route inserts for seat `sid` (server.js
lines 216-222); the `uuidv4()` row id is never read back, so it is derived
from the `UNIQUE(event_id, seat_id)` key. -/
def mkLock (eventId sid sessionId : String) (expiresAt : Nat) : SeatLock :=
  { id := eventId ++ "|" ++ sid, event_id := eventId, seat_id := sid,
    session_id := sessionId, expires_at := expiresAt }

/-- Result of `POST /api/events/:eventId/seats/lock`. -/
inductive AcquireResult where
  /-- HTTP 400: missing seatIds / sessionId. -/
  | badRequest (msg : String)
  /-- HTTP 409: some seats are no longer available. -/
  | conflict (unavailable : List UnavailableSeat)
  /-- HTTP 200: `{ success, expiresAt, lockedSeats }`. -/
  | success (expiresAt : Nat) (lockedSeats : Nat)
  deriving DecidableEq, Repr

/-- `POST /api/events/:eventId/seats/lock` (server.js lines 162-235):
validate, purge expired locks, compute the unavailable seats, and on success
drop this session's locks for the event and insert a fresh lock per
requested seat. -/
def acquire (db : DB) (now : Nat) (eventId : String) (seatIds : List String)
    (sessionId : String) : AcquireResult × DB :=
  if seatIds.isEmpty then (.badRequest "No seats specified", db)
  else if sessionId == "" then (.badRequest "Session ID required", db)
  else
    let db1 := cleanExpiredLocks db now
    let unavail := unavailableSeats db1 now eventId seatIds sessionId
    if 0 < unavail.length then (.conflict unavail, db1)
    else
      let kept := db1.seat_locks.filter
        (fun l => !(l.event_id == eventId && l.session_id == sessionId))
      let db2 := { db1 with seat_locks := kept }
      let expiresAt := now + LOCK_DURATION_SECONDS
      let db3 := seatIds.foldl
        (fun d sid =>
          { d with seat_locks := insertOrReplaceLock d.seat_locks (mkLock eventId sid sessionId expiresAt) })
        db2
      (.success expiresAt seatIds.length, db3)

/-- `POST /api/events/:eventId/seats/release` (server.js lines 238-253):
delete every lock of this session for this event; always succeeds. -/
def release (db : DB) (eventId sessionId : String) : DB :=
  { db with seat_locks :=
      db.seat_locks.filter (fun l => !(l.event_id == eventId && l.session_id == sessionId)) }

/-- Three-way seat state of the availability projection. -/
inductive SeatStatus where
  | booked
  | locked
  | available
  deriving DecidableEq, Repr

/-- The `sl.id IS NOT NULL` test of the seats projection: the join with
`seat_locks` there filters only on seat and event, with no liveness
condition (server.js line 140). -/
def seatHasLockRow (db : DB) (eventId seatId : String) : Bool :=
  db.seat_locks.any (fun l => l.seat_id == seatId && l.event_id == eventId)

/-- The CASE expression of `GET /api/events/:eventId/seats`
(server.js lines 127-131). -/
def projectSeat (db : DB) (eventId seatId : String) : SeatStatus :=
  if seatBookedConfirmed db eventId seatId then .booked
  else if seatHasLockRow db eventId seatId then .locked
  else .available

/-- `GET /api/events/:eventId/seats` (server.js lines 115-159): 404 when the
event does not exist, otherwise purge expired locks and classify every seat
of the event's venue.  Row grouping is presentational and not modelled. -/
def project (db : DB) (now : Nat) (eventId : String) :
    Option (DB × List (Seat × SeatStatus)) :=
  match db.events.find? (fun e => e.id == eventId) with
  | none => none
  | some ev =>
    let db1 := cleanExpiredLocks db now
    some (db1, (db1.seats.filter (fun s => s.venue_id == ev.venue_id)).map
      (fun s => (s, projectSeat db1 eventId s.id)))

/-- JavaScript `a || b` on a nullable numeric column: the left operand is
used unless it is `NULL` or `0` (both falsy). -/
def jsOr (v : Option Rat) (dflt : Rat) : Rat :=
  match v with
  | none => dflt
  | some x => if x == 0 then dflt else x

/-- Per-seat price resolution of `POST /api/bookings` (server.js
lines 296-302): start from `base_price`, override for `vip` and `premium`
tiers with the JS `||` fallback. -/
def resolvePrice (ev : Event) (tier : String) : Rat :=
  if tier == "vip" then jsOr ev.vip_price (ev.base_price * 2)
  else if tier == "premium" then jsOr ev.premium_price (ev.base_price * (3 / 2))
  else ev.base_price

/-- Result of `POST /api/bookings`. -/
inductive BookingResult where
  /-- HTTP 400: missing required fields. -/
  | badRequest
  /-- HTTP 409: lock expired or invalid. -/
  | lockExpired
  /-- HTTP 404: event not found. -/
  | notFound
  /-- HTTP 200: `{ bookingId, totalAmount, seats }`. -/
  | created (bookingId : String) (totalAmount : Rat) (seats : Nat)
  deriving DecidableEq, Repr

/-- The live-lock rows the booking route counts (server.js lines 270-276):
locks for this event and session on requested seats with
`expires_at > datetime('now')`. -/
def sessionLiveLocks (db : DB) (now : Nat) (eventId : String) (seatIds : List String)
    (sessionId : String) : List SeatLock :=
  db.seat_locks.filter (fun l =>
    l.event_id == eventId && l.session_id == sessionId &&
    seatIds.contains l.seat_id && (now < l.expires_at : Bool))

/-- `POST /api/bookings` (server.js lines 260-336).  `bookingId` stands for
the fresh `uuidv4()`; booking-seat row ids, also fresh uuids never read
back, are derived from the booking id and seat id.  The JS field check
treats an empty string as missing; a present-but-empty `seatIds` array is
truthy in JS and passes validation. -/
def createBooking (db : DB) (now : Nat) (bookingId : String) (eventId : String)
    (seatIds : List String) (sessionId userEmail userName : String) :
    BookingResult × DB :=
  if eventId == "" || sessionId == "" || userEmail == "" || userName == "" then
    (.badRequest, db)
  else
    let locks := sessionLiveLocks db now eventId seatIds sessionId
    if locks.length != seatIds.length then (.lockExpired, db)
    else match db.events.find? (fun e => e.id == eventId) with
    | none => (.notFound, db)
    | some ev =>
      let seatsSel := db.seats.filter (fun s => seatIds.contains s.id)
      let seatPrices := seatsSel.map (fun s => (s.id, resolvePrice ev s.tier))
      let totalAmount := (seatPrices.map Prod.snd).sum
      let booking : Booking :=
        { id := bookingId, event_id := eventId, user_email := userEmail,
          user_name := userName, total_amount := totalAmount, status := "pending" }
      let bseats : List BookingSeat := seatPrices.map (fun sp =>
        { id := bookingId ++ "|" ++ sp.1, booking_id := bookingId,
          seat_id := sp.1, price := sp.2 })
      let keptLocks := db.seat_locks.filter
        (fun l => !(l.event_id == eventId && l.session_id == sessionId))
      let db2 : DB :=
        { db with
          bookings := db.bookings ++ [booking],
          booking_seats := db.booking_seats ++ bseats,
          seat_locks := keptLocks }
      (.created bookingId totalAmount seatsSel.length, db2)

/-- Result of `POST /api/payments`. -/
inductive SettleResult where
  /-- HTTP 400: missing required fields. -/
  | badRequest
  /-- HTTP 404: booking not found. -/
  | notFound
  /-- HTTP 400: booking already paid. -/
  | alreadyConfirmed
  /-- HTTP 402: payment declined. -/
  | declined
  /-- HTTP 200: `{ success, paymentId, transactionId, qrCode }`. -/
  | success (paymentId transactionId : String)
  deriving DecidableEq, Repr

/-- `POST /api/payments` (server.js lines 378-442).  `paymentId` and
`transactionId` stand for the fresh generated identifiers; `declined` models
the `Math.random() < 0.1` outcome of the simulated external payment.  QR
generation only produces the never-re-read `qr_code` column and is not
modelled. -/
def settle (db : DB) (paymentId transactionId : String) (declined : Bool)
    (bookingId method : String) : SettleResult × DB :=
  if bookingId == "" || method == "" then (.badRequest, db)
  else match db.bookings.find? (fun b => b.id == bookingId) with
  | none => (.notFound, db)
  | some booking =>
    if booking.status == "confirmed" then (.alreadyConfirmed, db)
    else if declined then (.declined, db)
    else
      let payment : Payment :=
        { id := paymentId, booking_id := bookingId, amount := booking.total_amount,
          method := method, status := "completed", transaction_id := transactionId }
      let db2 : DB :=
        { db with
          payments := db.payments ++ [payment],
          bookings := db.bookings.map (fun b =>
            if b.id == bookingId then { b with status := "confirmed" } else b) }
      (.success paymentId transactionId, db2)

/-! ## Derived notions used by the specification claims -/

/-- The seat-lock table respects `UNIQUE(event_id, seat_id)`: no two rows
share the key. -/
def LocksKeyNodup (locks : List SeatLock) : Prop :=
  locks.Pairwise (fun a b => a.event_id ≠ b.event_id ∨ a.seat_id ≠ b.seat_id)

instance (locks : List SeatLock) : Decidable (LocksKeyNodup locks) := by
  unfold LocksKeyNodup; infer_instance

/-- `isHeld`: the session holds a live lock on the seat for the event. -/
def isHeldBy (db : DB) (now : Nat) (eventId sessionId seatId : String) : Prop :=
  ∃ l ∈ db.seat_locks, l.event_id = eventId ∧ l.session_id = sessionId ∧
    l.seat_id = seatId ∧ now < l.expires_at

instance (db : DB) (now : Nat) (e s sid : String) : Decidable (isHeldBy db now e s sid) := by
  unfold isHeldBy; infer_instance

/-! ## Helper lemmas -/

theorem cleanExpiredLocks_seat_locks (db : DB) (now : Nat) :
    (cleanExpiredLocks db now).seat_locks
      = db.seat_locks.filter (fun l => !(l.expires_at < now : Bool)) := rfl

theorem cleanExpiredLocks_booking_tables (db : DB) (now : Nat) :
    (cleanExpiredLocks db now).bookings = db.bookings ∧
    (cleanExpiredLocks db now).booking_seats = db.booking_seats ∧
    (cleanExpiredLocks db now).seats = db.seats := ⟨rfl, rfl, rfl⟩

theorem seatBookedConfirmed_clean (db : DB) (now : Nat) (e s : String) :
    seatBookedConfirmed (cleanExpiredLocks db now) e s = seatBookedConfirmed db e s := rfl

theorem seatLockedByOther_clean_eq_false (db : DB) (now : Nat) (e s sess : String)
    (h : seatLockedByOther db now e s sess = false) :
    seatLockedByOther (cleanExpiredLocks db now) now e s sess = false := by
  simp only [seatLockedByOther, List.any_eq_true, not_exists, List.any_eq_false] at h ⊢
  intro l hl
  exact h l (List.mem_of_mem_filter hl)

theorem locksKeyNodup_filter (locks : List SeatLock) (p : SeatLock → Bool)
    (h : LocksKeyNodup locks) : LocksKeyNodup (locks.filter p) :=
  h.sublist (List.filter_sublist locks)

theorem locksKeyNodup_insertOrReplaceLock (locks : List SeatLock) (l : SeatLock)
    (h : LocksKeyNodup locks) : LocksKeyNodup (insertOrReplaceLock locks l) := by
  unfold insertOrReplaceLock LocksKeyNodup
  rw [List.pairwise_append]
  refine ⟨locksKeyNodup_filter locks _ h, List.pairwise_singleton _ _, ?_⟩
  intro a ha b hb
  rw [List.mem_singleton] at hb
  subst hb
  have := List.of_mem_filter ha
  simp only [Bool.not_eq_eq_eq_not, Bool.not_true, Bool.and_eq_false_imp] at this
  by_cases he : a.event_id = b.event_id
  · right
    intro hs
    have : (a.seat_id == b.seat_id) = false := by
      simpa [he] using this
    simp [hs] at this
  · exact Or.inl he

/-- The body of the success-path insert loop of the lock route. -/
def lockStep (eventId sessionId : String) (expiresAt : Nat) (d : DB) (sid : String) : DB :=
  { d with seat_locks := insertOrReplaceLock d.seat_locks (mkLock eventId sid sessionId expiresAt) }

theorem acquire_success_state (db : DB) (now : Nat) (E S : String) (sids : List String)
    (hne : sids.isEmpty = false) (hS : (S == "") = false)
    (hunavail : unavailableSeats (cleanExpiredLocks db now) now E sids S = []) :
    acquire db now E sids S =
      (.success (now + LOCK_DURATION_SECONDS) sids.length,
        sids.foldl (lockStep E S (now + LOCK_DURATION_SECONDS))
          (release (cleanExpiredLocks db now) E S)) := by
  simp only [acquire, hne, hS, Bool.false_eq_true, if_false, hunavail, List.length_nil,
    Nat.lt_irrefl, release]
  rfl

theorem locksKeyNodup_lockStep_foldl (E S : String) (expAt : Nat) (sids : List String)
    (db0 : DB) (h : LocksKeyNodup db0.seat_locks) :
    LocksKeyNodup ((sids.foldl (lockStep E S expAt) db0).seat_locks) := by
  induction sids generalizing db0 with
  | nil => exact h
  | cons a as ih =>
    exact ih _ (locksKeyNodup_insertOrReplaceLock _ _ h)

theorem mem_insertOrReplaceLock_of_shape (locks : List SeatLock) (l l' : SeatLock)
    (h : l ∈ locks) (hcase : l'.event_id = l.event_id ∧ l'.seat_id = l.seat_id → l' = l) :
    l ∈ insertOrReplaceLock locks l' := by
  unfold insertOrReplaceLock
  by_cases hk : l'.event_id = l.event_id ∧ l'.seat_id = l.seat_id
  · have hl := hcase hk
    subst hl
    simp
  · rw [List.mem_append]
    left
    rw [List.mem_filter]
    refine ⟨h, ?_⟩
    by_cases he : l.event_id = l'.event_id
    · have hs : l.seat_id ≠ l'.seat_id := fun hs => hk ⟨he.symm, hs.symm⟩
      simp [he, hs]
    · simp [he]

theorem mkLock_stays_foldl (E S : String) (expAt : Nat) (sids : List String) (db0 : DB)
    (sid : String) (h : mkLock E sid S expAt ∈ db0.seat_locks) :
    mkLock E sid S expAt ∈ (sids.foldl (lockStep E S expAt) db0).seat_locks := by
  induction sids generalizing db0 with
  | nil => exact h
  | cons a as ih =>
    rw [List.foldl_cons]
    apply ih
    apply mem_insertOrReplaceLock_of_shape _ _ _ h
    intro hk
    have ha : a = sid := hk.2
    rw [ha]

theorem mkLock_mem_foldl (E S : String) (expAt : Nat) (sids : List String) (db0 : DB)
    (sid : String) (hsid : sid ∈ sids) :
    mkLock E sid S expAt ∈ (sids.foldl (lockStep E S expAt) db0).seat_locks := by
  induction sids generalizing db0 with
  | nil => cases hsid
  | cons a as ih =>
    rw [List.foldl_cons]
    rcases List.mem_cons.mp hsid with h | h
    · subst h
      apply mkLock_stays_foldl
      simp [lockStep, insertOrReplaceLock]
    · exact ih _ h

theorem acquire_success_inv (db : DB) (now : Nat) (E S : String) (sids : List String)
    (exp k : Nat) (h : (acquire db now E sids S).1 = .success exp k) :
    sids.isEmpty = false ∧ (S == "") = false ∧
    unavailableSeats (cleanExpiredLocks db now) now E sids S = [] ∧
    exp = now + LOCK_DURATION_SECONDS ∧ k = sids.length := by
  simp only [acquire] at h
  split at h
  · exact absurd h (by simp)
  next h1 =>
    split at h
    · exact absurd h (by simp)
    next h2 =>
      split at h
      next h3 => exact absurd h (by simp)
      next h3 =>
        simp only [AcquireResult.success.injEq] at h
        refine ⟨by simpa using h1, by simpa using h2, ?_, h.1.symm, h.2.symm⟩
        have h0 : (unavailableSeats (cleanExpiredLocks db now) now E sids S).length = 0 :=
          Nat.eq_zero_of_not_pos h3
        exact List.eq_nil_of_length_eq_zero h0

/-! ## Concrete states used as failing inputs and witnesses -/

/-- A state in which seat `s1` of event `E` sits inside a *pending* booking
`B` and carries no lock: exactly the situation the spec says must reject a
new lock request. -/
def dbPendingSeat : DB :=
  { seats := [{ id := "s1", venue_id := "V", row_label := "A", seat_number := 1,
                tier := "standard" }],
    events := [{ id := "E", venue_id := "V", base_price := 50, vip_price := none,
                 premium_price := none, status := "active" }],
    seat_locks := [],
    bookings := [{ id := "B", event_id := "E", user_email := "x@y.z", user_name := "X",
                   total_amount := 50, status := "pending" }],
    booking_seats := [{ id := "B|s1", booking_id := "B", seat_id := "s1", price := 50 }],
    payments := [] }

/-- `dbPendingSeat` extended with a live lock on `s1` held by session `X`
(expiry 400). -/
def dbConflict : DB :=
  { dbPendingSeat with seat_locks :=
      [{ id := "L1", event_id := "E", seat_id := "s1", session_id := "X", expires_at := 400 }] }

/-- A lock by session `X` on seat `s1` of event `E` that expires at time 50. -/
def lockX : SeatLock :=
  { id := "L1", event_id := "E", seat_id := "s1", session_id := "X", expires_at := 50 }

/-- A state holding only `lockX`, with no bookings; at time 100 the lock is
expired. -/
def dbExpired : DB :=
  { seats := [{ id := "s1", venue_id := "V", row_label := "A", seat_number := 1,
                tier := "standard" }],
    events := [{ id := "E", venue_id := "V", base_price := 50, vip_price := none,
                 premium_price := none, status := "active" }],
    seat_locks := [lockX],
    bookings := [], booking_seats := [], payments := [] }

/-- A state with no seats at all, so any requested seat id is nonexistent. -/
def dbNoSeats : DB :=
  { seats := [], events := [], seat_locks := [], bookings := [], booking_seats := [],
    payments := [] }

/-! ## Claim theorems -/

/-- C1: the spec demands that a seat attached to a pending booking be
rejected with `Conflict` by a new session's lock request, but the lock
route's unavailability query restricts the booking join to `status =
'confirmed'` (server.js lines 188-192): at state `dbPendingSeat`, where a
pending booking for event `E` holds seat `s1` and session `Z` did not
create it, `acquire` by `Z` *succeeds* and inserts a new lock for `s1`
instead of failing with `Conflict` reason `booked`. -/
theorem acquire_grants_lock_despite_pending_booking :
    (∃ b ∈ dbPendingSeat.bookings, b.status = "pending" ∧ b.event_id = "E" ∧
       ∃ bs ∈ dbPendingSeat.booking_seats, bs.booking_id = b.id ∧ bs.seat_id = "s1") ∧
    (acquire dbPendingSeat 100 "E" ["s1"] "Z").1 = .success 700 1 ∧
    mkLock "E" "s1" "Z" 700 ∈ (acquire dbPendingSeat 100 "E" ["s1"] "Z").2.seat_locks := by
  refine ⟨?_, by decide, by decide⟩
  decide

/-- C4: all-or-nothing acquire.  Whenever the lock route answers
`Conflict`, the resulting lock table is exactly the purge of the incoming
one: it is a subset of the pre-call lock table (so no lock attributable to
the requesting session was added by the call) and every live pre-existing
lock survives unchanged. -/
theorem acquire_conflict_all_or_nothing (db : DB) (now : Nat) (E S : String)
    (sids : List String) (u : List UnavailableSeat)
    (h : (acquire db now E sids S).1 = .conflict u) :
    (acquire db now E sids S).2.seat_locks
        = db.seat_locks.filter (fun l => !(l.expires_at < now : Bool)) ∧
    (∀ l ∈ (acquire db now E sids S).2.seat_locks, l ∈ db.seat_locks) ∧
    (∀ l ∈ db.seat_locks, now < l.expires_at → l ∈ (acquire db now E sids S).2.seat_locks) := by
  have hstate : (acquire db now E sids S).2 = cleanExpiredLocks db now := by
    simp only [acquire] at h ⊢
    split at h
    · exact absurd h (by simp)
    · split at h
      · exact absurd h (by simp)
      · split at h
        · simp_all
        · exact absurd h (by simp)
  refine ⟨by rw [hstate]; rfl, ?_, ?_⟩
  · intro l hl
    rw [hstate] at hl
    exact List.mem_of_mem_filter hl
  · intro l hl hlive
    rw [hstate, cleanExpiredLocks_seat_locks, List.mem_filter]
    exact ⟨hl, by simpa using Nat.lt_asymm hlive⟩

/-- Witness for C4 at a concrete conflicting call: seat `s1` of
`dbPendingSeat` extended with a live lock by session `X` is requested by
session `Z`, which yields `Conflict`, and the lock table afterwards is
exactly the pre-call one. -/
theorem acquire_conflict_all_or_nothing_witness :
    ((acquire dbConflict 100 "E" ["s1"] "Z").1 = .conflict
        [{ id := "s1", row_label := "A", seat_number := 1, reason := "locked" }]) ∧
    (acquire dbConflict 100 "E" ["s1"] "Z").2.seat_locks
        = dbConflict.seat_locks.filter (fun l => !(l.expires_at < 100 : Bool)) := by
  exact ⟨by decide,
    (acquire_conflict_all_or_nothing dbConflict 100 "E" "Z" ["s1"]
      [{ id := "s1", row_label := "A", seat_number := 1, reason := "locked" }] (by decide)).1⟩

/-- C2: once a purge has run, an expired lock is gone, and a subsequent
acquire of its seat by a different session `Y` succeeds (granting `Y` a
fresh lock) whenever no confirmed booking and no other live lock claims the
seat — an expired lock never blocks acquisition after a purge executes. -/
theorem expired_lock_purged_then_reacquirable (db : DB) (now : Nat) (E s Y : String)
    (l : SeatLock) (hl : l ∈ db.seat_locks) (hexp : l.expires_at < now) (hY : Y ≠ "")
    (hnb : seatBookedConfirmed db E s = false)
    (hno : seatLockedByOther db now E s Y = false) :
    l ∉ (cleanExpiredLocks db now).seat_locks ∧
    (acquire db now E [s] Y).1 = .success (now + LOCK_DURATION_SECONDS) 1 ∧
    mkLock E s Y (now + LOCK_DURATION_SECONDS) ∈ (acquire db now E [s] Y).2.seat_locks := by
  have hY2 : (Y == "") = false := beq_eq_false_iff_ne.mpr hY
  have hunavail : unavailableSeats (cleanExpiredLocks db now) now E [s] Y = [] := by
    unfold unavailableSeats
    rw [List.map_eq_nil_iff, List.filter_eq_nil_iff]
    intro a ha
    by_cases hid : a.id = s
    · rw [hid]
      simp [seatBookedConfirmed_clean, hnb,
        seatLockedByOther_clean_eq_false db now E s Y hno]
    · simp [hid]
  have hsucc := acquire_success_state db now E Y [s] rfl hY2 hunavail
  refine ⟨?_, by rw [hsucc]; rfl, ?_⟩
  · intro hmem
    rw [cleanExpiredLocks_seat_locks, List.mem_filter] at hmem
    have := hmem.2
    simp only [Bool.not_eq_true', decide_eq_false_iff_not] at this
    exact this hexp
  · rw [hsucc]
    exact mkLock_mem_foldl E Y (now + LOCK_DURATION_SECONDS) [s] _ s (by simp)

/-- Witness for C2: at time 100 the expired `lockX` (expiry 50) is purged
and session `Y` successfully re-acquires seat `s1`. -/
theorem expired_lock_purged_then_reacquirable_witness :
    (lockX ∈ dbExpired.seat_locks ∧ lockX.expires_at < 100 ∧ ("Y" : String) ≠ "" ∧
     seatBookedConfirmed dbExpired "E" "s1" = false ∧
     seatLockedByOther dbExpired 100 "E" "s1" "Y" = false) ∧
    (lockX ∉ (cleanExpiredLocks dbExpired 100).seat_locks ∧
     (acquire dbExpired 100 "E" ["s1"] "Y").1 = .success 700 1 ∧
     mkLock "E" "s1" "Y" 700 ∈ (acquire dbExpired 100 "E" ["s1"] "Y").2.seat_locks) :=
  ⟨by refine ⟨by decide, by decide, by decide, by decide, by decide⟩,
   expired_lock_purged_then_reacquirable dbExpired 100 "E" "s1" "Y" lockX
     (by decide) (by decide) (by decide) (by decide) (by decide)⟩

/-- C10: the lock route never validates seat existence: a requested seat id
matching no row of the seats table is never reported unavailable, and on
success a lock row is inserted for it just as for real seats. -/
theorem acquire_skips_seat_existence (db : DB) (now : Nat) (E S sid : String)
    (sids : List String) (hsid : sid ∈ sids)
    (hghost : ∀ s0 ∈ db.seats, s0.id ≠ sid) :
    (∀ u ∈ unavailableSeats (cleanExpiredLocks db now) now E sids S, u.id ≠ sid) ∧
    (∀ exp k, (acquire db now E sids S).1 = .success exp k →
      mkLock E sid S exp ∈ (acquire db now E sids S).2.seat_locks) := by
  constructor
  · intro u hu
    unfold unavailableSeats at hu
    rw [List.mem_map] at hu
    obtain ⟨s0, hs0, rfl⟩ := hu
    exact hghost s0 (List.mem_of_mem_filter hs0)
  · intro exp k h
    obtain ⟨hne, hS, hunavail, hexp, hk⟩ := acquire_success_inv db now E S sids exp k h
    subst hexp
    rw [acquire_success_state db now E S sids hne hS hunavail]
    exact mkLock_mem_foldl E S (now + LOCK_DURATION_SECONDS) sids _ sid hsid

/-- Witness for C10: in a state with an empty seats table, locking the
nonexistent seat id `ghost` reports nothing unavailable and succeeds,
inserting a lock row for `ghost`. -/
theorem acquire_skips_seat_existence_witness :
    (("ghost" : String) ∈ ["ghost"] ∧ ∀ s0 ∈ dbNoSeats.seats, s0.id ≠ "ghost") ∧
    ((∀ u ∈ unavailableSeats (cleanExpiredLocks dbNoSeats 100) 100 "E" ["ghost"] "S",
        u.id ≠ "ghost") ∧
     (∀ exp k, (acquire dbNoSeats 100 "E" ["ghost"] "S").1 = .success exp k →
       mkLock "E" "ghost" "S" exp ∈ (acquire dbNoSeats 100 "E" ["ghost"] "S").2.seat_locks)) :=
  ⟨⟨by decide, by decide⟩,
   acquire_skips_seat_existence dbNoSeats 100 "E" "S" "ghost" ["ghost"]
     (by decide) (by decide)⟩

theorem seatHasLockRow_clean_iff (db : DB) (now : Nat) (E sid : String) :
    seatHasLockRow (cleanExpiredLocks db now) E sid = true ↔
      ∃ l ∈ db.seat_locks, l.event_id = E ∧ l.seat_id = sid ∧ ¬ l.expires_at < now := by
  unfold seatHasLockRow
  rw [cleanExpiredLocks_seat_locks]
  simp only [List.any_eq_true, List.mem_filter, Bool.and_eq_true, beq_iff_eq,
    Bool.not_eq_true', decide_eq_false_iff_not]
  constructor
  · rintro ⟨l, ⟨hl, hne⟩, hs, he⟩
    exact ⟨l, hl, he, hs, hne⟩
  · rintro ⟨l, hl, he, hs, hne⟩
    exact ⟨l, ⟨hl, hne⟩, hs, he⟩

/-- C5: the seats projection classifies a seat as `booked` exactly when a
confirmed booking for the event claims it through a booking-seat row;
otherwise `locked` exactly when a non-expired seat lock for the event
exists on it; otherwise `available`.  Seats claimed only by pending
bookings are not reported `booked`. -/
theorem project_seat_classification (db : DB) (now : Nat) (E : String) (db1 : DB)
    (out : List (Seat × SeatStatus)) (h : project db now E = some (db1, out))
    (p : Seat × SeatStatus) (hp : p ∈ out) :
    (p.2 = .booked ↔ seatBookedConfirmed db E p.1.id = true) ∧
    (p.2 = .locked ↔ (seatBookedConfirmed db E p.1.id = false ∧
       ∃ l ∈ db.seat_locks, l.event_id = E ∧ l.seat_id = p.1.id ∧ ¬ l.expires_at < now)) ∧
    (p.2 = .available ↔ (seatBookedConfirmed db E p.1.id = false ∧
       ¬ ∃ l ∈ db.seat_locks, l.event_id = E ∧ l.seat_id = p.1.id ∧ ¬ l.expires_at < now)) := by
  simp only [project] at h
  cases hfind : db.events.find? (fun e => e.id == E) with
  | none => rw [hfind] at h; cases h
  | some ev =>
    rw [hfind] at h
    simp only [Option.some.injEq, Prod.mk.injEq] at h
    obtain ⟨hdb1, hout⟩ := h
    rw [← hout] at hp
    rw [List.mem_map] at hp
    obtain ⟨s, hs, rfl⟩ := hp
    simp only []
    unfold projectSeat
    have hbc : seatBookedConfirmed (cleanExpiredLocks db now) E s.id
        = seatBookedConfirmed db E s.id := rfl
    by_cases hb : seatBookedConfirmed db E s.id = true
    · rw [hbc, if_pos hb]
      refine ⟨iff_of_true rfl hb, ?_, ?_⟩
      · exact iff_of_false (by simp) (fun hc => by simp [hb] at hc)
      · exact iff_of_false (by simp) (fun hc => by simp [hb] at hc)
    · have hb' : seatBookedConfirmed db E s.id = false := by
        simpa using hb
      rw [hbc, if_neg (by simp [hb'])]
      by_cases hk : seatHasLockRow (cleanExpiredLocks db now) E s.id = true
      · rw [if_pos hk]
        have hex := (seatHasLockRow_clean_iff db now E s.id).mp hk
        refine ⟨iff_of_false (by simp) (by simp [hb']), iff_of_true rfl ⟨hb', hex⟩, ?_⟩
        exact iff_of_false (by simp) (fun hc => hc.2 hex)
      · rw [if_neg hk]
        have hnex : ¬ ∃ l ∈ db.seat_locks, l.event_id = E ∧ l.seat_id = s.id ∧
            ¬ l.expires_at < now :=
          fun hex => hk ((seatHasLockRow_clean_iff db now E s.id).mpr hex)
        refine ⟨iff_of_false (by simp) (by simp [hb']), ?_, iff_of_true rfl ⟨hb', hnex⟩⟩
        exact iff_of_false (by simp) (fun hc => hnex hc.2)

/-- Seat `s1` of venue `V`. -/
def seat1 : Seat := { id := "s1", venue_id := "V", row_label := "A", seat_number := 1,
                      tier := "standard" }

/-- Seat `s2` of venue `V`. -/
def seat2 : Seat := { id := "s2", venue_id := "V", row_label := "A", seat_number := 2,
                      tier := "standard" }

/-- A state where `s1` is claimed by a confirmed booking and `s2` carries a
live lock, for exercising the seats projection. -/
def dbProj : DB :=
  { seats := [seat1, seat2],
    events := [{ id := "E", venue_id := "V", base_price := 50, vip_price := none,
                 premium_price := none, status := "active" }],
    seat_locks := [{ id := "L2", event_id := "E", seat_id := "s2", session_id := "X",
                     expires_at := 400 }],
    bookings := [{ id := "B", event_id := "E", user_email := "x@y.z", user_name := "X",
                   total_amount := 50, status := "confirmed" }],
    booking_seats := [{ id := "B|s1", booking_id := "B", seat_id := "s1", price := 50 }],
    payments := [] }

/-- The projection output of `dbProj` at time 100. -/
def outProj : List (Seat × SeatStatus) := [(seat1, .booked), (seat2, .locked)]

/-- Witness for C5: at `dbProj`, the projection reports `s2` as `locked`,
and the classification equivalences hold for it. -/
theorem project_seat_classification_witness :
    (project dbProj 100 "E" = some (cleanExpiredLocks dbProj 100, outProj) ∧
     (seat2, SeatStatus.locked) ∈ outProj) ∧
    ((SeatStatus.locked = SeatStatus.booked ↔
        seatBookedConfirmed dbProj "E" seat2.id = true) ∧
     (SeatStatus.locked = SeatStatus.locked ↔
        (seatBookedConfirmed dbProj "E" seat2.id = false ∧
         ∃ l ∈ dbProj.seat_locks, l.event_id = "E" ∧ l.seat_id = seat2.id ∧
           ¬ l.expires_at < 100)) ∧
     (SeatStatus.locked = SeatStatus.available ↔
        (seatBookedConfirmed dbProj "E" seat2.id = false ∧
         ¬ ∃ l ∈ dbProj.seat_locks, l.event_id = "E" ∧ l.seat_id = seat2.id ∧
           ¬ l.expires_at < 100))) :=
  ⟨⟨by decide, by decide⟩,
   project_seat_classification dbProj 100 "E" (cleanExpiredLocks dbProj 100) outProj
     (by decide) (seat2, SeatStatus.locked) (by decide)⟩

theorem settle_success_state (db : DB) (pid tid bid m : String) (b : Booking)
    (hbm : (bid == "" || m == "") = false)
    (hfind : db.bookings.find? (fun x => x.id == bid) = some b)
    (hstat : (b.status == "confirmed") = false) :
    settle db pid tid false bid m =
      (.success pid tid,
        { db with
          payments := db.payments ++
            [{ id := pid, booking_id := bid, amount := b.total_amount, method := m,
               status := "completed", transaction_id := tid }],
          bookings := db.bookings.map (fun x =>
            if x.id == bid then { x with status := "confirmed" } else x) }) := by
  simp only [settle, hbm, Bool.false_eq_true, if_false, hfind, hstat]

theorem settle_success_inv (db : DB) (pid tid p2 t2 : String) (dec : Bool) (bid m : String)
    (h : (settle db pid tid dec bid m).1 = .success p2 t2) :
    (bid == "" || m == "") = false ∧
    ∃ b, db.bookings.find? (fun x => x.id == bid) = some b ∧
      (b.status == "confirmed") = false ∧ dec = false := by
  simp only [settle] at h
  split at h
  · exact absurd h (by simp)
  next h1 =>
    split at h
    · exact absurd h (by simp)
    next b hfind =>
      split at h
      next h2 => exact absurd h (by simp)
      next h2 =>
        split at h
        next h3 => exact absurd h (by simp)
        next h3 =>
          exact ⟨by simpa using h1, b, hfind, by simpa using h2, by simpa using h3⟩

/-- C8: a settle on an already-confirmed booking fails with
`AlreadyConfirmed` and changes nothing; consequently, after a first
successful settle, any second settle on the same booking id returns
`AlreadyConfirmed` and records no further payment and no state change. -/
theorem settle_no_double_payment (db : DB) (pid tid pid2 tid2 : String)
    (dec1 dec2 : Bool) (bid m m2 : String)
    (hbid : bid ≠ "") (hm : m ≠ "") (hm2 : m2 ≠ "") :
    (∀ b, db.bookings.find? (fun x => x.id == bid) = some b → b.status = "confirmed" →
       settle db pid tid dec1 bid m = (.alreadyConfirmed, db)) ∧
    ((settle db pid tid false bid m).1 = .success pid tid →
       settle ((settle db pid tid false bid m).2) pid2 tid2 dec2 bid m2
         = (.alreadyConfirmed, (settle db pid tid false bid m).2)) := by
  have hbid' : (bid == "") = false := beq_eq_false_iff_ne.mpr hbid
  have hm' : (m == "") = false := beq_eq_false_iff_ne.mpr hm
  have hm2' : (m2 == "") = false := beq_eq_false_iff_ne.mpr hm2
  constructor
  · intro b hfind hstat
    have hstat' : (b.status == "confirmed") = true := by simp [hstat]
    simp only [settle, hbid', hm', Bool.or_self, Bool.false_eq_true, if_false, hfind, hstat']
    simp
  · intro hsucc
    obtain ⟨hbm, b, hfind, hstat, -⟩ :=
      settle_success_inv db pid tid pid tid false bid m hsucc
    have hstate := settle_success_state db pid tid bid m b hbm hfind hstat
    rw [hstate]
    have hb_id : (b.id == bid) = true := by
      have := List.find?_some hfind
      simpa using this
    have hfind2 :
        (db.bookings.map (fun x =>
          if x.id == bid then { x with status := "confirmed" } else x)).find?
            (fun x => x.id == bid)
          = some { b with status := "confirmed" } := by
      rw [List.find?_map]
      have hcomp : ((fun x : Booking => x.id == bid) ∘
          (fun x => if x.id == bid then { x with status := "confirmed" } else x))
            = (fun x : Booking => x.id == bid) := by
        funext x
        by_cases hx : x.id = bid <;> simp [hx]
      rw [hcomp, hfind]
      have hb_id' : b.id = bid := by simpa using hb_id
      simp [hb_id']
    simp only [settle, hbid', hm2', Bool.or_self, Bool.false_eq_true, if_false, hfind2]
    simp

/-- Witness for C8: at `dbPendingSeat`, a first settle of pending booking
`B` succeeds, and the repeated settle returns `AlreadyConfirmed` without
touching the state. -/
theorem settle_no_double_payment_witness :
    (("B" : String) ≠ "" ∧ ("card" : String) ≠ "" ∧ ("card" : String) ≠ "") ∧
    ((∀ b, dbPendingSeat.bookings.find? (fun x => x.id == "B") = some b →
        b.status = "confirmed" →
        settle dbPendingSeat "P1" "T1" false "B" "card" = (.alreadyConfirmed, dbPendingSeat)) ∧
     ((settle dbPendingSeat "P1" "T1" false "B" "card").1 = .success "P1" "T1" →
        settle ((settle dbPendingSeat "P1" "T1" false "B" "card").2) "P2" "T2" false "B" "card"
          = (.alreadyConfirmed, (settle dbPendingSeat "P1" "T1" false "B" "card").2))) :=
  ⟨⟨by decide, by decide, by decide⟩,
   settle_no_double_payment dbPendingSeat "P1" "T1" "P2" "T2" false false "B" "card" "card"
     (by decide) (by decide) (by decide)⟩

/-- C9: a declined settle returns `Declined` and leaves the state literally
unchanged (booking still pending, no payment recorded, every seat exactly
as available or protected as before, the lock route behaving identically),
and a retried settle on the same booking can still succeed. -/
theorem settle_declined_state_unchanged (db : DB) (pid tid pid2 tid2 bid m m2 : String)
    (b : Booking) (hfind : db.bookings.find? (fun x => x.id == bid) = some b)
    (hstat : (b.status == "confirmed") = false)
    (hbid : bid ≠ "") (hm : m ≠ "") (hm2 : m2 ≠ "") :
    settle db pid tid true bid m = (.declined, db) ∧
    (∀ E sids S t, acquire ((settle db pid tid true bid m).2) t E sids S
        = acquire db t E sids S) ∧
    (settle db pid2 tid2 false bid m2).1 = .success pid2 tid2 := by
  have hbid' : (bid == "") = false := beq_eq_false_iff_ne.mpr hbid
  have hm' : (m == "") = false := beq_eq_false_iff_ne.mpr hm
  have hm2' : (m2 == "") = false := beq_eq_false_iff_ne.mpr hm2
  have h1 : settle db pid tid true bid m = (.declined, db) := by
    simp only [settle, hbid', hm', Bool.or_self, Bool.false_eq_true, if_false, hfind, hstat]
    simp
  refine ⟨h1, ?_, ?_⟩
  · intro E sids S t
    rw [h1]
  · rw [settle_success_state db pid2 tid2 bid m2 b (by simp [hbid', hm2']) hfind hstat]

/-- Witness for C9: at `dbPendingSeat`, a declined settle of pending
booking `B` changes nothing and a retry succeeds. -/
theorem settle_declined_state_unchanged_witness :
    (dbPendingSeat.bookings.find? (fun x => x.id == "B")
        = some { id := "B", event_id := "E", user_email := "x@y.z", user_name := "X",
                 total_amount := 50, status := "pending" } ∧
     ("B" : String) ≠ "" ∧ ("card" : String) ≠ "") ∧
    (settle dbPendingSeat "P1" "T1" true "B" "card" = (.declined, dbPendingSeat) ∧
     (∀ E sids S t, acquire ((settle dbPendingSeat "P1" "T1" true "B" "card").2) t E sids S
         = acquire dbPendingSeat t E sids S) ∧
     (settle dbPendingSeat "P2" "T2" false "B" "card").1 = .success "P2" "T2") :=
  ⟨⟨by decide, by decide, by decide⟩,
   settle_declined_state_unchanged dbPendingSeat "P1" "T1" "P2" "T2" "B" "card" "card"
     { id := "B", event_id := "E", user_email := "x@y.z", user_name := "X",
       total_amount := 50, status := "pending" }
     (by decide) (by decide) (by decide) (by decide) (by decide)⟩

/-- The booking-seat row created for seat `s0` by the booking route. -/
def mkBookingSeat (bid : String) (ev : Event) (s0 : Seat) : BookingSeat :=
  { id := bid ++ "|" ++ s0.id, booking_id := bid, seat_id := s0.id,
    price := resolvePrice ev s0.tier }

theorem createBooking_success_state (db : DB) (now : Nat) (bid E : String)
    (sids : List String) (S em nm : String) (ev : Event)
    (hval : (E == "" || S == "" || em == "" || nm == "") = false)
    (hlen : (sessionLiveLocks db now E sids S).length = sids.length)
    (hev : db.events.find? (fun e => e.id == E) = some ev) :
    createBooking db now bid E sids S em nm =
      (.created bid
          (((db.seats.filter (fun s => sids.contains s.id)).map
            (fun s => resolvePrice ev s.tier)).sum)
          (db.seats.filter (fun s => sids.contains s.id)).length,
        { db with
          bookings := db.bookings ++
            [{ id := bid, event_id := E, user_email := em, user_name := nm,
               total_amount := ((db.seats.filter (fun s => sids.contains s.id)).map
                 (fun s => resolvePrice ev s.tier)).sum, status := "pending" }],
          booking_seats := db.booking_seats ++
            (db.seats.filter (fun s => sids.contains s.id)).map (mkBookingSeat bid ev),
          seat_locks := db.seat_locks.filter
            (fun l => !(l.event_id == E && l.session_id == S)) }) := by
  have hbne : ((sessionLiveLocks db now E sids S).length != sids.length) = false := by
    simp [hlen]
  simp only [createBooking, hval, Bool.false_eq_true, if_false, hbne, hev]
  rw [List.map_map, List.map_map]
  rfl

theorem createBooking_created_inv (db : DB) (now : Nat) (bid E : String)
    (sids : List String) (S em nm : String) (b : String) (T : Rat) (k : Nat)
    (h : (createBooking db now bid E sids S em nm).1 = .created b T k) :
    (E == "" || S == "" || em == "" || nm == "") = false ∧
    (sessionLiveLocks db now E sids S).length = sids.length ∧
    ∃ ev, db.events.find? (fun e => e.id == E) = some ev := by
  simp only [createBooking] at h
  split at h
  · exact absurd h (by simp)
  next h1 =>
    split at h
    next h2 => exact absurd h (by simp)
    next h2 =>
      split at h
      · exact absurd h (by simp)
      next ev hev =>
        refine ⟨by simpa using h1, ?_, ev, hev⟩
        have h2' : ((sessionLiveLocks db now E sids S).length
            != sids.length) = false := by
          simpa using h2
        simpa using h2'

/-- The seat of the C6 counterexample: a `vip` seat. -/
def seatVip : Seat :=
  { id := "s1", venue_id := "V", row_label := "A", seat_number := 1, tier := "vip" }

/-- The event of the C6 counterexample: `vip_price` is explicitly set to 0. -/
def evVip0 : Event :=
  { id := "E", venue_id := "V", base_price := 10, vip_price := some 0,
    premium_price := none, status := "active" }

/-- A state where session `S` holds a live lock on the vip seat of `evVip0`,
ready for booking creation. -/
def dbVip0 : DB :=
  { seats := [seatVip], events := [evVip0],
    seat_locks := [{ id := "L", event_id := "E", seat_id := "s1", session_id := "S",
                     expires_at := 400 }],
    bookings := [], booking_seats := [], payments := [] }

/-- C6 counterexample: the claim says a vip seat resolves to the event's
`vipPrice` whenever it is set, but the code uses JavaScript `||`, which
also treats an explicit 0 as missing: on `dbVip0`, whose event has
`vip_price = some 0`, `createBooking` returns `totalAmount = basePrice * 2
= 20`, not the set price 0. -/
theorem createBooking_vip_zero_price_counterexample :
    evVip0.vip_price = some 0 ∧ (∃ s0 ∈ dbVip0.seats, s0.tier = "vip") ∧
    (createBooking dbVip0 100 "B1" "E" ["s1"] "S" "e@x" "N").1 = .created "B1" 20 1 ∧
    (20 : Rat) ≠ 0 := by
  refine ⟨rfl, by decide, ?_, by norm_num⟩
  simp [createBooking, sessionLiveLocks, resolvePrice, jsOr, dbVip0, evVip0, seatVip]
  norm_num

/-- C6 (amended): `createBooking` resolves each requested seat's price as:
tier `vip` → the event's `vipPrice` when set *and nonzero*, else
`basePrice * 2`; tier `premium` → `premiumPrice` when set and nonzero, else
`basePrice * 1.5`; otherwise `basePrice`.  The returned `totalAmount` is
the sum of the resolved prices of the fetched seats, and each created
booking-seat row stores its seat's resolved price. -/
theorem createBooking_price_resolution (db : DB) (now : Nat) (bid E : String)
    (sids : List String) (S em nm : String) (ev : Event) (T : Rat) (k : Nat)
    (hev : db.events.find? (fun e => e.id == E) = some ev)
    (h : (createBooking db now bid E sids S em nm).1 = .created bid T k) :
    T = ((db.seats.filter (fun s => sids.contains s.id)).map
          (fun s => resolvePrice ev s.tier)).sum ∧
    (∀ s0 ∈ db.seats, sids.contains s0.id = true →
       mkBookingSeat bid ev s0 ∈ (createBooking db now bid E sids S em nm).2.booking_seats) ∧
    (∀ e : Event, e.vip_price = none ∨ e.vip_price = some 0 →
       resolvePrice e "vip" = e.base_price * 2) ∧
    (∀ e : Event, ∀ v : Rat, e.vip_price = some v → v ≠ 0 → resolvePrice e "vip" = v) ∧
    (∀ e : Event, e.premium_price = none ∨ e.premium_price = some 0 →
       resolvePrice e "premium" = e.base_price * (3 / 2)) ∧
    (∀ e : Event, ∀ v : Rat, e.premium_price = some v → v ≠ 0 →
       resolvePrice e "premium" = v) ∧
    (∀ e : Event, ∀ t : String, t ≠ "vip" → t ≠ "premium" →
       resolvePrice e t = e.base_price) := by
  obtain ⟨hval, hlen, ev', hev'⟩ := createBooking_created_inv db now bid E sids S em nm bid T k h
  have hevev : ev' = ev := by rw [hev] at hev'; exact (Option.some.injEq _ _).mp hev'.symm
  subst hevev
  have hstate := createBooking_success_state db now bid E sids S em nm ev' hval hlen hev
  refine ⟨?_, ?_, ?_, ?_, ?_, ?_, ?_⟩
  · rw [hstate] at h
    exact ((BookingResult.created.injEq _ _ _ _ _ _).mp h).2.1.symm
  · intro s0 hs0 hcont
    rw [hstate]
    show mkBookingSeat bid ev' s0 ∈ db.booking_seats ++
      (db.seats.filter (fun s => sids.contains s.id)).map (mkBookingSeat bid ev')
    rw [List.mem_append]
    right
    exact List.mem_map_of_mem _ (List.mem_filter.mpr ⟨hs0, hcont⟩)
  · rintro e (hv | hv) <;> simp [resolvePrice, jsOr, hv]
  · intro e v hv hvne
    simp [resolvePrice, jsOr, hv, hvne]
  · rintro e (hv | hv) <;> simp [resolvePrice, jsOr, hv]
  · intro e v hv hvne
    simp [resolvePrice, jsOr, hv, hvne]
  · intro e t hv hp
    simp [resolvePrice, jsOr, hv, hp]

/-- A state like `dbVip0` but whose event has no explicit vip price at all. -/
def dbVipNone : DB :=
  { dbVip0 with events := [{ evVip0 with vip_price := none }] }

/-- Witness for C6 (amended): booking the vip seat of `dbVipNone`, whose
event has `vip_price = none` and `base_price = 10`, yields
`totalAmount = 20 = basePrice * 2`, matching the amended resolution
rule. -/
theorem createBooking_price_resolution_witness :
    (dbVipNone.events.find? (fun e => e.id == "E") = some { evVip0 with vip_price := none } ∧
     (createBooking dbVipNone 100 "B1" "E" ["s1"] "S" "e@x" "N").1 = .created "B1" 20 1) ∧
    (20 : Rat) = ((dbVipNone.seats.filter (fun s => (["s1"] : List String).contains s.id)).map
      (fun s => resolvePrice { evVip0 with vip_price := none } s.tier)).sum := by
  have h1 : (createBooking dbVipNone 100 "B1" "E" ["s1"] "S" "e@x" "N").1
      = .created "B1" 20 1 := by
    simp [createBooking, sessionLiveLocks, resolvePrice, jsOr, dbVipNone, dbVip0, evVip0,
      seatVip]
    norm_num
  exact ⟨⟨by decide, h1⟩,
    (createBooking_price_resolution dbVipNone 100 "B1" "E" ["s1"] "S" "e@x" "N"
      { evVip0 with vip_price := none } 20 1 (by decide) h1).1⟩

theorem sessionLiveLocks_map_nodup (db : DB) (now : Nat) (E : String) (sids : List String)
    (S : String) (hwf : LocksKeyNodup db.seat_locks) :
    ((sessionLiveLocks db now E sids S).map SeatLock.seat_id).Nodup := by
  have hpw : (sessionLiveLocks db now E sids S).Pairwise
      (fun a b => a.event_id ≠ b.event_id ∨ a.seat_id ≠ b.seat_id) :=
    locksKeyNodup_filter _ _ hwf
  have hpw2 : (sessionLiveLocks db now E sids S).Pairwise
      (fun a b => a.seat_id ≠ b.seat_id) := by
    apply hpw.imp_of_mem
    intro a b ha hb hr
    have hea : a.event_id = E := by
      have := List.of_mem_filter ha
      simp only [Bool.and_eq_true, beq_iff_eq] at this
      exact this.1.1.1
    have heb : b.event_id = E := by
      have := List.of_mem_filter hb
      simp only [Bool.and_eq_true, beq_iff_eq] at this
      exact this.1.1.1
    rcases hr with he | hs
    · exact absurd (hea.trans heb.symm) he
    · exact hs
  exact List.Pairwise.map SeatLock.seat_id (fun a b h => h) hpw2

theorem sessionLiveLocks_length_iff (db : DB) (now : Nat) (E : String) (sids : List String)
    (S : String) (hwf : LocksKeyNodup db.seat_locks) (hnd : sids.Nodup) :
    (sessionLiveLocks db now E sids S).length = sids.length ↔
      ∀ sid ∈ sids, isHeldBy db now E S sid := by
  have hmapnd := sessionLiveLocks_map_nodup db now E sids S hwf
  have hsub : ∀ x ∈ (sessionLiveLocks db now E sids S).map SeatLock.seat_id, x ∈ sids := by
    intro x hx
    rw [List.mem_map] at hx
    obtain ⟨l, hl, rfl⟩ := hx
    have hcond := List.of_mem_filter hl
    simp only [Bool.and_eq_true, beq_iff_eq] at hcond
    simpa using hcond.1.2
  have hsubF : ((sessionLiveLocks db now E sids S).map SeatLock.seat_id).toFinset
      ⊆ sids.toFinset := by
    intro x hx
    rw [List.mem_toFinset] at hx ⊢
    exact hsub x hx
  constructor
  · intro hlen sid hsid
    have hcard1 : ((sessionLiveLocks db now E sids S).map SeatLock.seat_id).toFinset.card
        = sids.length := by
      rw [List.toFinset_card_of_nodup hmapnd, List.length_map]
      exact hlen
    have hcard2 : sids.toFinset.card = sids.length := List.toFinset_card_of_nodup hnd
    have heqF : ((sessionLiveLocks db now E sids S).map SeatLock.seat_id).toFinset
        = sids.toFinset :=
      Finset.eq_of_subset_of_card_le hsubF (by rw [hcard1, hcard2])
    have hmem : sid ∈ (sessionLiveLocks db now E sids S).map SeatLock.seat_id := by
      rw [← List.mem_toFinset, heqF, List.mem_toFinset]
      exact hsid
    rw [List.mem_map] at hmem
    obtain ⟨l, hl, hlid⟩ := hmem
    have hcond := List.of_mem_filter hl
    simp only [Bool.and_eq_true, beq_iff_eq, decide_eq_true_eq] at hcond
    exact ⟨l, List.mem_of_mem_filter hl, hcond.1.1.1, hcond.1.1.2, hlid, hcond.2⟩
  · intro hall
    have hsupF : sids.toFinset
        ⊆ ((sessionLiveLocks db now E sids S).map SeatLock.seat_id).toFinset := by
      intro x hx
      rw [List.mem_toFinset] at hx ⊢
      obtain ⟨l, hl, he, hs, hid, hlive⟩ := hall x hx
      rw [List.mem_map]
      refine ⟨l, ?_, hid⟩
      unfold sessionLiveLocks
      rw [List.mem_filter]
      refine ⟨hl, ?_⟩
      have hxmem : l.seat_id ∈ sids := by rw [hid]; exact hx
      simp [he, hs, hxmem, hlive]
    have heqF := Finset.Subset.antisymm hsubF hsupF
    have := congrArg Finset.card heqF
    rw [List.toFinset_card_of_nodup hmapnd, List.toFinset_card_of_nodup hnd,
      List.length_map] at this
    exact this

/-- C7: `createBooking` goes on to create a booking exactly when every
requested seat carries a live lock for the event owned by the requesting
session; when some requested seat lacks such a lock it fails with
`LockExpired` and leaves the state unchanged, creating no booking. -/
theorem createBooking_lock_gate (db : DB) (now : Nat) (bid E : String) (sids : List String)
    (S em nm : String) (hwf : LocksKeyNodup db.seat_locks) (hnd : sids.Nodup)
    (hval : (E == "" || S == "" || em == "" || nm == "") = false)
    (hev : (db.events.find? (fun e => e.id == E)).isSome = true) :
    ((∃ T k, (createBooking db now bid E sids S em nm).1 = .created bid T k) ↔
       ∀ sid ∈ sids, isHeldBy db now E S sid) ∧
    ((¬ ∀ sid ∈ sids, isHeldBy db now E S sid) →
       createBooking db now bid E sids S em nm = (.lockExpired, db)) := by
  obtain ⟨ev, hev2⟩ := Option.isSome_iff_exists.mp hev
  have hiff := sessionLiveLocks_length_iff db now E sids S hwf hnd
  constructor
  · constructor
    · rintro ⟨T, k, h⟩
      obtain ⟨-, hlen, -⟩ := createBooking_created_inv db now bid E sids S em nm bid T k h
      exact hiff.mp hlen
    · intro hall
      rw [createBooking_success_state db now bid E sids S em nm ev hval (hiff.mpr hall) hev2]
      exact ⟨_, _, rfl⟩
  · intro hnall
    have hlen : (sessionLiveLocks db now E sids S).length ≠ sids.length :=
      fun hlen => hnall (hiff.mp hlen)
    have hbne : ((sessionLiveLocks db now E sids S).length != sids.length) = true := by
      simpa using hlen
    simp only [createBooking, hval, Bool.false_eq_true, if_false, hbne, if_true]

/-- A state where session `S` holds live locks on `s1` and `s2` but the
booking request also asks for the unlocked seat `s3`. -/
def dbGate : DB :=
  { seats := [seat1, seat2],
    events := [{ id := "E", venue_id := "V", base_price := 50, vip_price := none,
                 premium_price := none, status := "active" }],
    seat_locks := [{ id := "La", event_id := "E", seat_id := "s1", session_id := "S",
                     expires_at := 400 },
                   { id := "Lb", event_id := "E", seat_id := "s2", session_id := "S",
                     expires_at := 400 }],
    bookings := [], booking_seats := [], payments := [] }

/-- Witness for C7: at `dbGate` and time 100, the session holds live locks
on `s1` and `s2`, so a request for `[s1, s2]` passes the gate, while a
request for `[s1, s3]` does not and returns `LockExpired` unchanged. -/
theorem createBooking_lock_gate_witness :
    (LocksKeyNodup dbGate.seat_locks ∧ (["s1", "s3"] : List String).Nodup ∧
     (("E" == "" || "S" == "" || "e@x" == "" || "N" == "") = false) ∧
     (dbGate.events.find? (fun e => e.id == "E")).isSome = true) ∧
    (((∃ T k, (createBooking dbGate 100 "B1" "E" ["s1", "s3"] "S" "e@x" "N").1
          = .created "B1" T k) ↔
        ∀ sid ∈ (["s1", "s3"] : List String), isHeldBy dbGate 100 "E" "S" sid) ∧
     ((¬ ∀ sid ∈ (["s1", "s3"] : List String), isHeldBy dbGate 100 "E" "S" sid) →
        createBooking dbGate 100 "B1" "E" ["s1", "s3"] "S" "e@x" "N"
          = (.lockExpired, dbGate))) :=
  ⟨⟨by decide, by decide, by decide, by decide⟩,
   createBooking_lock_gate dbGate 100 "B1" "E" ["s1", "s3"] "S" "e@x" "N"
     (by decide) (by decide) (by decide) (by decide)⟩

theorem settle_seat_locks (db : DB) (pid tid : String) (dec : Bool) (bid m : String) :
    ((settle db pid tid dec bid m).2).seat_locks = db.seat_locks := by
  simp only [settle]
  split
  · rfl
  · split
    · rfl
    · split
      · rfl
      · split
        · rfl
        · rfl

theorem locksKeyNodup_createBooking (db : DB) (now : Nat) (bid E : String)
    (sids : List String) (S em nm : String) (hwf : LocksKeyNodup db.seat_locks) :
    LocksKeyNodup ((createBooking db now bid E sids S em nm).2).seat_locks := by
  simp only [createBooking]
  split
  · exact hwf
  · split
    · exact hwf
    · split
      · exact hwf
      · exact locksKeyNodup_filter _ _ hwf

theorem unavailableSeats_clean_nil (db : DB) (now : Nat) (E : String) (sids : List String)
    (S : String)
    (h : ∀ s0 ∈ sids, seatBookedConfirmed db E s0 = false ∧
       seatLockedByOther db now E s0 S = false) :
    unavailableSeats (cleanExpiredLocks db now) now E sids S = [] := by
  unfold unavailableSeats
  rw [List.map_eq_nil_iff, List.filter_eq_nil_iff]
  intro a ha
  by_cases hid : a.id ∈ sids
  · obtain ⟨hb, ho⟩ := h a.id hid
    have hb2 : seatBookedConfirmed (cleanExpiredLocks db now) E a.id = false := hb
    have ho2 := seatLockedByOther_clean_eq_false db now E a.id S ho
    simp [hb2, ho2]
  · simp [hid]

theorem locksKeyNodup_acquire (db : DB) (now : Nat) (E : String) (sids : List String)
    (S : String) (hwf : LocksKeyNodup db.seat_locks) :
    LocksKeyNodup ((acquire db now E sids S).2).seat_locks := by
  by_cases h1 : sids.isEmpty = true
  · simp only [acquire, h1, if_true]
    exact hwf
  · by_cases h2 : (S == "") = true
    · simp only [acquire, h1, Bool.not_eq_true, if_neg, h2, if_true]
      exact hwf
    · by_cases h3 : unavailableSeats (cleanExpiredLocks db now) now E sids S = []
      · rw [acquire_success_state db now E S sids (by simpa using h1) (by simpa using h2) h3]
        apply locksKeyNodup_lockStep_foldl
        exact locksKeyNodup_filter _ _ (locksKeyNodup_filter _ _ hwf)
      · have hpos : 0 < (unavailableSeats (cleanExpiredLocks db now) now E sids S).length :=
          List.length_pos.mpr h3
        simp only [acquire]
        rw [if_neg (by simpa using h1), if_neg (by simpa using h2), if_pos hpos]
        exact locksKeyNodup_filter _ _ hwf

/-- C3: in every state whose lock table respects `UNIQUE(event_id,
seat_id)`, every operation (acquire, release, createBooking, settle, purge)
preserves that key uniqueness; at most one live lock exists per (event,
seat); a session holding live locks is not blocked by them from
re-acquiring the same seats (its own locks are refreshed); and a live lock
blocks every other session's acquire containing that seat. -/
theorem seat_lock_mutual_exclusion (db : DB) (now : Nat)
    (E S T bid em nm m pid tid : String) (sids : List String) (dec : Bool)
    (sid : String) (hwf : LocksKeyNodup db.seat_locks) :
    LocksKeyNodup ((acquire db now E sids S).2).seat_locks ∧
    LocksKeyNodup (release db E S).seat_locks ∧
    LocksKeyNodup ((createBooking db now bid E sids S em nm).2).seat_locks ∧
    LocksKeyNodup ((settle db pid tid dec bid m).2).seat_locks ∧
    LocksKeyNodup (cleanExpiredLocks db now).seat_locks ∧
    (∀ l1 ∈ db.seat_locks, ∀ l2 ∈ db.seat_locks, now < l1.expires_at →
       now < l2.expires_at → l1.event_id = l2.event_id → l1.seat_id = l2.seat_id →
       l1 = l2) ∧
    (sids ≠ [] → S ≠ "" →
       (∀ s0 ∈ sids, seatBookedConfirmed db E s0 = false ∧
          seatLockedByOther db now E s0 S = false) →
       (acquire db now E sids S).1 = .success (now + LOCK_DURATION_SECONDS) sids.length) ∧
    (∀ l ∈ db.seat_locks, l.event_id = E → l.seat_id = sid → now < l.expires_at →
       l.session_id ≠ T → T ≠ "" → sid ∈ sids → (∃ s0 ∈ db.seats, s0.id = sid) →
       ∃ u, (acquire db now E sids T).1 = .conflict u) := by
  refine ⟨locksKeyNodup_acquire db now E sids S hwf,
    locksKeyNodup_filter _ _ hwf,
    locksKeyNodup_createBooking db now bid E sids S em nm hwf,
    ?_, locksKeyNodup_filter _ _ hwf, ?_, ?_, ?_⟩
  · rw [settle_seat_locks]
    exact hwf
  · intro l1 h1 l2 h2 hv1 hv2 hee hss
    by_cases h12 : l1 = l2
    · exact h12
    · have hsym : Symmetric (fun a b : SeatLock =>
          a.event_id ≠ b.event_id ∨ a.seat_id ≠ b.seat_id) :=
        fun a b hab => hab.imp Ne.symm Ne.symm
      have := List.Pairwise.forall hsym hwf h1 h2 h12
      rcases this with he | hs
      · exact absurd hee he
      · exact absurd hss hs
  · intro hne hS hall
    have hne2 : sids.isEmpty = false := by
      cases sids
      · exact absurd rfl hne
      · rfl
    have hS2 := beq_eq_false_iff_ne.mpr hS
    rw [acquire_success_state db now E S sids hne2 hS2
      (unavailableSeats_clean_nil db now E sids S hall)]
  · intro l hl he hs hlive hT hTne hsid hseat
    obtain ⟨s0, hs0, hs0id⟩ := hseat
    have hne2 : sids.isEmpty = false := by
      cases sids
      · cases hsid
      · rfl
    have hT2 : (T == "") = false := beq_eq_false_iff_ne.mpr hTne
    have hlocked : seatLockedByOther (cleanExpiredLocks db now) now E s0.id T = true := by
      unfold seatLockedByOther
      rw [List.any_eq_true]
      refine ⟨l, ?_, ?_⟩
      · rw [cleanExpiredLocks_seat_locks, List.mem_filter]
        exact ⟨hl, by simpa using Nat.lt_asymm hlive⟩
      · simp [hs, hs0id, he, hlive, hT]
    have hmem : s0 ∈ (cleanExpiredLocks db now).seats.filter (fun s =>
        sids.contains s.id &&
        (seatBookedConfirmed (cleanExpiredLocks db now) E s.id ||
         seatLockedByOther (cleanExpiredLocks db now) now E s.id T)) := by
      rw [List.mem_filter]
      refine ⟨hs0, ?_⟩
      have hcont : s0.id ∈ sids := by rw [hs0id]; exact hsid
      simp [hcont, hlocked]
    have hpos : 0 < (unavailableSeats (cleanExpiredLocks db now) now E sids T).length := by
      apply List.length_pos.mpr
      intro hnil
      unfold unavailableSeats at hnil
      rw [List.map_eq_nil_iff] at hnil
      rw [hnil] at hmem
      cases hmem
    simp only [acquire]
    rw [if_neg (by simpa using hne2), if_neg (by simpa using hT2), if_pos hpos]
    exact ⟨_, rfl⟩

/-- Witness for C3 at `dbGate` (well-formed lock table with live locks of
session `S` on `s1` and `s2`). -/
theorem seat_lock_mutual_exclusion_witness :
    LocksKeyNodup dbGate.seat_locks ∧
    (LocksKeyNodup ((acquire dbGate 100 "E" ["s1"] "S").2).seat_locks ∧
     LocksKeyNodup (release dbGate "E" "S").seat_locks ∧
     LocksKeyNodup ((createBooking dbGate 100 "B1" "E" ["s1"] "S" "e@x" "N").2).seat_locks ∧
     LocksKeyNodup ((settle dbGate "P1" "T1" false "B1" "card").2).seat_locks ∧
     LocksKeyNodup (cleanExpiredLocks dbGate 100).seat_locks ∧
     (∀ l1 ∈ dbGate.seat_locks, ∀ l2 ∈ dbGate.seat_locks, 100 < l1.expires_at →
        100 < l2.expires_at → l1.event_id = l2.event_id → l1.seat_id = l2.seat_id →
        l1 = l2) ∧
     ((["s1"] : List String) ≠ [] → ("S" : String) ≠ "" →
        (∀ s0 ∈ (["s1"] : List String), seatBookedConfirmed dbGate "E" s0 = false ∧
           seatLockedByOther dbGate 100 "E" s0 "S" = false) →
        (acquire dbGate 100 "E" ["s1"] "S").1
          = .success (100 + LOCK_DURATION_SECONDS) (["s1"] : List String).length) ∧
     (∀ l ∈ dbGate.seat_locks, l.event_id = "E" → l.seat_id = "s1" →
        100 < l.expires_at → l.session_id ≠ "Z" → ("Z" : String) ≠ "" →
        ("s1" : String) ∈ (["s1"] : List String) →
        (∃ s0 ∈ dbGate.seats, s0.id = "s1") →
        ∃ u, (acquire dbGate 100 "E" ["s1"] "Z").1 = .conflict u)) :=
  ⟨by decide,
   seat_lock_mutual_exclusion dbGate 100 "E" "S" "Z" "B1" "e@x" "N" "card" "P1" "T1"
     ["s1"] false "s1" (by decide)⟩

end EventBooking
